import Mathlib

/-!
Shallow embedding of the j2f-be backend's SQL-translation helpers and of the
Company/Job repository operations, together with proofs of the specification
claims about them.

Sources embedded:
* `src/helpers/sql.js` — `sqlForPartialUpdate`
* `src/models/company.js` — `Company._sqlForPartialFilter`, plus the store
  shape used by `Company`/`Job` repository operations
* `src/models/job.js` and `src/unnamed/part_001` (primary version, lines
  1-233) — `Job._sqlForPartialFilter`, `Job.create`, `Job.update`
* `src/unnamed/part_001` (draft version, lines 491-529) — the draft
  `Job._sqlForPartialFilter` whose `hasEquity` branch is inverted

JS objects are modelled as association lists (insertion order = iteration
order); JS values bound as SQL parameters are modelled by the `Value` type;
thrown `BadRequestError`/`NotFoundError` become `Except DomErr`; error
message strings are elided. JS truthiness on the typed filter fields is
modelled field by field (a number is truthy iff nonzero, a string iff
nonempty, a boolean iff true, an absent value is falsy).
-/

namespace J2F

/-- A JavaScript value that can be bound as a positional SQL parameter. -/
inductive Value where
  | num (n : Int)
  | str (s : String)
  | bool (b : Bool)
  | null
  deriving DecidableEq, Repr

/-- The two domain error kinds raised by the repository layer
(`BadRequestError`, `NotFoundError`); human-readable messages are elided. -/
inductive DomErr where
  | badRequest
  | notFound
  deriving DecidableEq, Repr

instance {ε α : Type} [DecidableEq ε] [DecidableEq α] : DecidableEq (Except ε α) := fun x y =>
  match x, y with
  | .ok a, .ok b =>
      if h : a = b then isTrue (by rw [h]) else isFalse (by intro hc; cases hc; exact h rfl)
  | .error e, .error e2 =>
      if h : e = e2 then isTrue (by rw [h]) else isFalse (by intro hc; cases hc; exact h rfl)
  | .ok _, .error _ => isFalse (by intro hc; cases hc)
  | .error _, .ok _ => isFalse (by intro hc; cases hc)

/-- First-match association lookup, the reading of `jsToSql[colName]`. -/
def lookupStr (k : String) : List (String × String) → Option String
  | [] => none
  | (k2, v) :: rest => if k2 = k then some v else lookupStr k rest

/-- `jsToSql[colName] || colName` from `src/helpers/sql.js` line 23: the
override column when present and truthy (a string is truthy iff nonempty),
otherwise the JS field name itself. -/
def resolveCol (jsToSql : List (String × String)) (k : String) : String :=
  match lookupStr k jsToSql with
  | some c => if c = "" then k else c
  | none => k

/-- The clause list built by `keys.map((colName, idx) => ...)` in
`src/helpers/sql.js` lines 22-24; `i` is the index of the first entry. -/
def setClauses (jsToSql : List (String × String)) : Nat → List (String × Value) → List String
  | _, [] => []
  | i, kv :: rest =>
      ("\"" ++ resolveCol jsToSql kv.1 ++ "\"=$" ++ toString (i + 1))
        :: setClauses jsToSql (i + 1) rest

/-- `sqlForPartialUpdate` from `src/helpers/sql.js` lines 17-30: throws
`BadRequestError` on an empty mapping, else returns the comma-joined
assignment clauses (`setCols`) and the value list in key order. -/
def sqlForPartialUpdate (dataToUpdate : List (String × Value))
    (jsToSql : List (String × String)) : Except DomErr (String × List Value) :=
  if dataToUpdate.isEmpty then .error .badRequest
  else .ok (String.intercalate ", " (setClauses jsToSql 0 dataToUpdate),
            dataToUpdate.map Prod.snd)

/-! ## Company filter translator (`src/models/company.js` lines 168-206) -/

/-- The filter mapping passed to `Company._sqlForPartialFilter`: the three
recognized keys, typed, plus the list of unrecognized keys also present in
the JS object (their values never matter). A recognized field is `none`
exactly when destructuring would yield `undefined`. -/
structure CompanyFilter where
  minEmployees : Option Int
  maxEmployees : Option Int
  name : Option String
  otherKeys : List String
  deriving DecidableEq, Repr

/-- `Object.keys(filters).length === 0` for a `CompanyFilter`. -/
def CompanyFilter.isEmptyMap (f : CompanyFilter) : Bool :=
  f.minEmployees.isNone && f.maxEmployees.isNone && f.name.isNone && f.otherKeys.isEmpty

/-- `minEmployees && maxEmployees && +minEmployees > +maxEmployees` from
`src/models/company.js` line 180: both bounds truthy (present and nonzero)
and the lower bound exceeding the upper one. -/
def companyRangeBad : Option Int → Option Int → Bool
  | some m, some mx => (m != 0) && (mx != 0) && decide (mx < m)
  | _, _ => false

/-- `Company._sqlForPartialFilter` from `src/models/company.js` lines
168-206. Clauses are pushed in the order minEmployees, maxEmployees, name;
each placeholder index is `whereClauses.length + 1` at push time. -/
def Company.sqlForPartialFilter (f : CompanyFilter) : Except DomErr (String × List Value) :=
  if f.isEmptyMap then .ok ("", [])
  else if companyRangeBad f.minEmployees f.maxEmployees then .error .badRequest
  else
    let a0 : List String × List Value := ([], [])
    let a1 := match f.minEmployees with
      | some m => (a0.1 ++ ["num_employees >= $" ++ toString (a0.1.length + 1)],
                   a0.2 ++ [Value.num m])
      | none => a0
    let a2 := match f.maxEmployees with
      | some m => (a1.1 ++ ["num_employees <= $" ++ toString (a1.1.length + 1)],
                   a1.2 ++ [Value.num m])
      | none => a1
    let a3 := match f.name with
      | some n => (a2.1 ++ ["name ILIKE $" ++ toString (a2.1.length + 1)],
                   a2.2 ++ [Value.str ("%" ++ n ++ "%")])
      | none => a2
    .ok ("WHERE " ++ String.intercalate " AND " a3.1, a3.2)

/-! ## Job filter translator (`src/unnamed/part_001` lines 194-232) -/

/-- The filter mapping passed to `Job._sqlForPartialFilter`: the three
recognized keys, typed, plus the unrecognized keys also present. -/
structure JobFilter where
  title : Option String
  minSalary : Option Int
  hasEquity : Option Bool
  otherKeys : List String
  deriving DecidableEq, Repr

/-- `Object.keys(filters).length === 0` for a `JobFilter`. -/
def JobFilter.isEmptyMap (f : JobFilter) : Bool :=
  f.title.isNone && f.minSalary.isNone && f.hasEquity.isNone && f.otherKeys.isEmpty

/-- `!title && !minSalary && !hasEquity` from `src/unnamed/part_001` line
207: every recognized field is JS-falsy (absent, empty string, zero, or
false). -/
def JobFilter.allFalsy (f : JobFilter) : Bool :=
  (match f.title with | some t => t = "" | none => true)
    && (match f.minSalary with | some m => m = 0 | none => true)
    && (match f.hasEquity with | some b => !b | none => true)

/-- The clause/value lists pushed by `Job._sqlForPartialFilter`
(`src/unnamed/part_001` lines 202-227): title, then minSalary, then the
value-free `equity > 0` clause when `hasEquity === true`; each placeholder
index is `whereClauses.length + 1` at push time. -/
def Job.filterClauses (f : JobFilter) : List String × List Value :=
  let a0 : List String × List Value := ([], [])
  let a1 := match f.title with
    | some t => (a0.1 ++ ["title ILIKE $" ++ toString (a0.1.length + 1)],
                 a0.2 ++ [Value.str ("%" ++ t ++ "%")])
    | none => a0
  let a2 := match f.minSalary with
    | some m => (a1.1 ++ ["salary >= $" ++ toString (a1.1.length + 1)],
                 a1.2 ++ [Value.num m])
    | none => a1
  if f.hasEquity == some true then (a2.1 ++ ["equity > 0"], a2.2) else a2

/-- `Job._sqlForPartialFilter` from `src/unnamed/part_001` lines 194-232
(the version exercised by `src/models/job.test.js`). -/
def Job.sqlForPartialFilter (f : JobFilter) : String × List Value :=
  if f.isEmptyMap then ("", [])
  else if f.allFalsy then ("", [])
  else
    let a := Job.filterClauses f
    ("WHERE " ++ String.intercalate " AND " a.1, a.2)

/-- The draft `Job._sqlForPartialFilter` from `src/unnamed/part_001` lines
491-529: identical to the primary version except that the equity branch
tests `hasEquity !== true` and pushes the malformed clause
`hasEquity > 0\x7d`. -/
def JobDraft.sqlForPartialFilter (f : JobFilter) : String × List Value :=
  if f.isEmptyMap then ("", [])
  else if f.allFalsy then ("", [])
  else
    let a0 : List String × List Value := ([], [])
    let a1 := match f.title with
      | some t => (a0.1 ++ ["title ILIKE $" ++ toString (a0.1.length + 1)],
                   a0.2 ++ [Value.str ("%" ++ t ++ "%")])
      | none => a0
    let a2 := match f.minSalary with
      | some m => (a1.1 ++ ["salary >= $" ++ toString (a1.1.length + 1)],
                   a1.2 ++ [Value.num m])
      | none => a1
    let a3 := if f.hasEquity != some true then (a2.1 ++ ["hasEquity > 0\x7d"], a2.2) else a2
    ("WHERE " ++ String.intercalate " AND " a3.1, a3.2)

/-! ## Relational store model and repository operations -/

/-- A row of the `companies` table. -/
structure CompanyRow where
  handle : String
  name : String
  description : String
  numEmployees : Value
  logoUrl : Value
  deriving DecidableEq, Repr

/-- A row of the `jobs` table; `id` is the system-generated key. -/
structure JobRow where
  id : Nat
  title : Value
  salary : Value
  equity : Value
  companyHandle : Value
  deriving DecidableEq, Repr

/-- The relational store: the two tables plus the generator for the next
`jobs.id` (the `SERIAL` sequence). -/
structure Store where
  companies : List CompanyRow
  jobs : List JobRow
  nextId : Nat
  deriving DecidableEq, Repr

/-- Input to `Job.create`: `{ title, salary, equity, companyHandle }`. -/
structure JobInput where
  title : Value
  salary : Value
  equity : Value
  companyHandle : String
  deriving DecidableEq, Repr

/-- Effect of one SQL assignment `"<col>"=value` on a `jobs` row. Columns
other than the four of the table leave the row unchanged (such an UPDATE
would fail in SQL; no claim depends on that path). -/
def applyJobSet (row : JobRow) (kv : String × Value) : JobRow :=
  match kv.1 with
  | "title" => { row with title := kv.2 }
  | "salary" => { row with salary := kv.2 }
  | "equity" => { row with equity := kv.2 }
  | "company_handle" => { row with companyHandle := kv.2 }
  | _ => row

/-- The (column, value) pairs meant by the `setCols`/`values` output of
`sqlForPartialUpdate`: each JS key resolved through the override mapping,
paired with its value, in key order. -/
def updateAssignments (jsToSql : List (String × String))
    (data : List (String × Value)) : List (String × Value) :=
  data.map (fun kv => (resolveCol jsToSql kv.1, kv.2))

/-- `Job.create` from `src/models/job.js` lines 17-38: a `SELECT` for the
company handle first; `BadRequestError` when no row comes back, otherwise
an `INSERT ... RETURNING` of the new row with a generated id. The store
after the call is returned alongside the result. -/
def Job.create (s : Store) (inp : JobInput) : Except DomErr JobRow × Store :=
  if s.companies.any (fun c => c.handle == inp.companyHandle) then
    let row : JobRow :=
      { id := s.nextId, title := inp.title, salary := inp.salary,
        equity := inp.equity, companyHandle := Value.str inp.companyHandle }
    (.ok row, { s with jobs := s.jobs ++ [row], nextId := s.nextId + 1 })
  else (.error .badRequest, s)

/-- `Job.update` from `src/models/job.js` lines 177-195:
`sqlForPartialUpdate(data)` (no override mapping), then
`UPDATE jobs SET <setCols> WHERE id = $n RETURNING ...`; `NotFoundError`
when no row matched. The `SET` list acts on the matched row as the
column/value pairs `updateAssignments [] data`. -/
def Job.update (s : Store) (jid : Nat) (data : List (String × Value)) :
    Except DomErr JobRow × Store :=
  match sqlForPartialUpdate data [] with
  | .error e => (.error e, s)
  | .ok _ =>
    match s.jobs.find? (fun j => j.id == jid) with
    | none => (.error .notFound, s)
    | some row =>
      let row2 := (updateAssignments [] data).foldl applyJobSet row
      (.ok row2, { s with jobs := s.jobs.map (fun j => if j.id == jid then row2 else j) })

/-! ## Concrete demo data (mirrors `_testCommon`'s seed rows) -/

/-- A concrete company row, for evaluating repository operations. -/
def demoCompany : CompanyRow :=
  { handle := "c1", name := "C1", description := "Desc1",
    numEmployees := Value.num 1, logoUrl := Value.str "http://c1.img" }

/-- A concrete job row owned by `demoCompany`. -/
def demoJob : JobRow :=
  { id := 1, title := Value.str "j1", salary := Value.num 100,
    equity := Value.str "0.1", companyHandle := Value.str "c1" }

/-- A concrete store holding `demoCompany` and `demoJob`. -/
def demoStore : Store :=
  { companies := [demoCompany], jobs := [demoJob], nextId := 2 }

/-! ## Helper lemmas -/

theorem setClauses_length (js : List (String × String)) (i : Nat)
    (data : List (String × Value)) : (setClauses js i data).length = data.length := by
  induction data generalizing i with
  | nil => rfl
  | cons kv rest ih => simp [setClauses, ih]

theorem setClauses_getElem? (js : List (String × String)) (i k : Nat)
    (data : List (String × Value)) (hk : k < data.length) :
    (setClauses js i data)[k]? =
      some ("\"" ++ resolveCol js (data.get ⟨k, hk⟩).1 ++ "\"=$" ++ toString (i + k + 1)) := by
  induction data generalizing i k with
  | nil => simp at hk
  | cons kv rest ih =>
    cases k with
    | zero => simp [setClauses]
    | succ k2 =>
      have hk2 : k2 < rest.length := by simpa using hk
      have := ih (i + 1) k2 hk2
      simp only [setClauses, List.getElem?_cons_succ, List.get_cons_succ]
      rw [this]
      have harith : i + 1 + k2 + 1 = i + (k2 + 1) + 1 := by omega
      rw [harith]

theorem foldl_applyJobSet_companyHandle (row : JobRow) (l : List (String × Value))
    (h : ∀ kv ∈ l, kv.1 = "title" ∨ kv.1 = "salary" ∨ kv.1 = "equity") :
    (l.foldl applyJobSet row).companyHandle = row.companyHandle := by
  induction l generalizing row with
  | nil => rfl
  | cons kv rest ih =>
    have hkv := h kv (List.mem_cons_self _ _)
    have hrest : ∀ kv2 ∈ rest, kv2.1 = "title" ∨ kv2.1 = "salary" ∨ kv2.1 = "equity" :=
      fun kv2 hm => h kv2 (List.mem_cons_of_mem _ hm)
    rw [List.foldl_cons, ih _ hrest]
    obtain ⟨k, v⟩ := kv
    rcases hkv with h1 | h1 | h1 <;> simp only at h1 <;> subst h1 <;> rfl

/-! ## Claim theorems -/

/-- C1 (counterexample): the claim says the column name is the override for
the key whenever one is given; but for the override mapping sending `a` to
the empty string, `jsToSql["a"] || "a"` falls back to the key, so the clause
is `"a"=$1`, not `""=$1` as the claim requires. -/
theorem c1_empty_override_counterexample :
    sqlForPartialUpdate [("a", Value.num 1)] [("a", "")] = .ok ("\"a\"=$1", [Value.num 1]) ∧
    ("\"a\"=$1" : String) ≠ "\"\"=$1" := by decide

/-- C1 (amended): for every non-empty update mapping and every override
mapping, `sqlForPartialUpdate` returns the comma-joined clause list with
exactly one clause per input key in input order, the placeholder index
1-based and assigned strictly by position, the column being the override
when a nonempty override is given for the key and the key itself otherwise
(an empty-string override is ignored), and the values list is the input's
values in the same order (hence of the same length as the key list). -/
theorem c1_partial_update_clauses (data : List (String × Value))
    (js : List (String × String)) (h : data ≠ []) :
    sqlForPartialUpdate data js =
      .ok (String.intercalate ", " (setClauses js 0 data), data.map Prod.snd) ∧
    (setClauses js 0 data).length = data.length ∧
    ∀ k : Fin data.length,
      ∃ col : String,
        (setClauses js 0 data)[k.1]? =
          some ("\"" ++ col ++ "\"=$" ++ toString (k.1 + 1)) ∧
        ((∃ c, lookupStr (data.get k).1 js = some c ∧ c ≠ "" ∧ col = c) ∨
         ((lookupStr (data.get k).1 js = none ∨ lookupStr (data.get k).1 js = some "") ∧
          col = (data.get k).1)) := by
  refine ⟨?_, setClauses_length js 0 data, ?_⟩
  · have hne : data.isEmpty = false := by
      cases data with
      | nil => exact absurd rfl h
      | cons kv rest => rfl
    simp [sqlForPartialUpdate, hne]
  · intro k
    refine ⟨resolveCol js (data.get k).1, ?_, ?_⟩
    · have := setClauses_getElem? js 0 k.1 data k.2
      simpa using this
    · unfold resolveCol
      cases hl : lookupStr (data.get k).1 js with
      | none => exact Or.inr ⟨Or.inl rfl, rfl⟩
      | some c =>
        by_cases hc : c = ""
        · subst hc
          exact Or.inr ⟨Or.inr rfl, by simp⟩
        · exact Or.inl ⟨c, rfl, hc, by simp [hc]⟩

/-- C1 witness: the helper at the source's own example,
`{firstName: "Aliya", age: 32}` with override `firstName → first_name`. -/
theorem c1_partial_update_clauses_witness :
    sqlForPartialUpdate [("firstName", Value.str "Aliya"), ("age", Value.num 32)]
        [("firstName", "first_name")] =
      .ok ("\"first_name\"=$1, \"age\"=$2", [Value.str "Aliya", Value.num 32]) :=
  ((c1_partial_update_clauses
      [("firstName", Value.str "Aliya"), ("age", Value.num 32)]
      [("firstName", "first_name")] (by decide)).1).trans (by decide)

/-- C2 (counterexample): the claim quantifies over every mapping containing
a recognized key, but `{minEmployees: 2, maxEmployees: 1}` contains
recognized keys and the translator throws `BadRequestError` there instead
of returning a `WHERE` predicate. -/
theorem c2_range_failure_counterexample :
    Company.sqlForPartialFilter ⟨some 2, some 1, none, []⟩ = .error .badRequest := by decide

/-- C2 (amended): for every company filter mapping containing at least one
recognized key on which the range check does not fire, the translator
returns the `WHERE` predicate with present-key clauses in the fixed order
minEmployees, maxEmployees, name, joined by `AND`, placeholder indices
1-based by clause position, values in matching order, and the name value
wrapped in `%` wildcards. -/
theorem c2_company_filter_shape (om oM : Option Int) (onm : Option String)
    (others : List String)
    (hrec : om.isSome ∨ oM.isSome ∨ onm.isSome)
    (hok : companyRangeBad om oM = false) :
    Company.sqlForPartialFilter ⟨om, oM, onm, others⟩ =
      .ok ("WHERE " ++ String.intercalate " AND "
            (om.toList.map (fun _ => "num_employees >= $1") ++
             oM.toList.map (fun _ => "num_employees <= $" ++ toString (om.toList.length + 1)) ++
             onm.toList.map (fun _ =>
               "name ILIKE $" ++ toString (om.toList.length + oM.toList.length + 1))),
           om.toList.map Value.num ++ oM.toList.map Value.num ++
             onm.toList.map (fun n => Value.str ("%" ++ n ++ "%"))) := by
  rcases om with _ | m <;> rcases oM with _ | mx <;> rcases onm with _ | n <;>
    simp [Company.sqlForPartialFilter, CompanyFilter.isEmptyMap, hok] <;>
    first
      | rfl
      | simp at hrec

/-- C2 witness: the spec's own example `{minEmployees: 3, name: "searchBy"}`
yields `WHERE num_employees >= $1 AND name ILIKE $2` with values
`[3, "%searchBy%"]`. -/
theorem c2_company_filter_shape_witness :
    Company.sqlForPartialFilter ⟨some 3, none, some "searchBy", []⟩ =
      .ok ("WHERE num_employees >= $1 AND name ILIKE $2",
           [Value.num 3, Value.str "%searchBy%"]) :=
  (c2_company_filter_shape (some 3) none (some "searchBy") []
      (Or.inl rfl) rfl).trans (by decide)

/-- C3: the job filter `{minSalary: 200, hasEquity: true}` translates to
exactly `WHERE salary >= $1 AND equity > 0` with values `[200]`; and for
every job filter mapping, the value list is exactly as long as the list of
clauses other than the value-free `equity > 0` clause. -/
theorem c3_job_filter :
    Job.sqlForPartialFilter ⟨none, some 200, some true, []⟩ =
      ("WHERE salary >= $1 AND equity > 0", [Value.num 200]) ∧
    ∀ f : JobFilter,
      (Job.filterClauses f).2.length =
        ((Job.filterClauses f).1.filter (fun c => c != "equity > 0")).length := by
  refine ⟨by decide, ?_⟩
  rintro ⟨t, ms, he, o⟩
  rcases t with _ | t <;> rcases ms with _ | ms <;> rcases he with _ | b <;>
    try cases b
  all_goals simp [Job.filterClauses]
  all_goals decide

/-- C4 (counterexample): the claim quantifies over every mapping with both
bounds present and min exceeding max, but the range check tests JS
truthiness, so `{minEmployees: 5, maxEmployees: 0}` (both present, 5 > 0)
does not throw: it returns the two clauses instead of `BadRequestError`. -/
theorem c4_zero_bound_counterexample :
    Company.sqlForPartialFilter ⟨some 5, some 0, none, []⟩ =
      .ok ("WHERE num_employees >= $1 AND num_employees <= $2",
           [Value.num 5, Value.num 0]) ∧
    Company.sqlForPartialFilter ⟨some 5, some 0, none, []⟩ ≠ .error .badRequest := by decide

/-- C4 (amended): for every company filter mapping in which minEmployees and
maxEmployees are both present and nonzero and minEmployees exceeds
maxEmployees, the translator fails with `BadRequestError`. -/
theorem c4_range_check_amended (m mx : Int) (nm : Option String)
    (others : List String) (hm : m ≠ 0) (hmx : mx ≠ 0) (hlt : mx < m) :
    Company.sqlForPartialFilter ⟨some m, some mx, nm, others⟩ = .error .badRequest := by
  have hbad : companyRangeBad (some m) (some mx) = true := by
    simp [companyRangeBad, hm, hmx, hlt]
  simp [Company.sqlForPartialFilter, CompanyFilter.isEmptyMap, hbad]

/-- C4 witness: `{minEmployees: 2, maxEmployees: 1}` fails with
`BadRequestError`, the claim's own concrete instance. -/
theorem c4_range_check_amended_witness :
    Company.sqlForPartialFilter ⟨some 2, some 1, none, []⟩ = .error .badRequest :=
  c4_range_check_amended 2 1 none [] (by decide) (by decide) (by decide)

/-- C5: on the primary job translator the claim holds — the first two
conjuncts evaluate it and the draft at `{minSalary: 200, hasEquity: true}`,
and the last conjunct shows that with hasEquity false or absent no
`equity > 0` clause is ever pushed — but the draft translator at
`src/unnamed/part_001` lines 491-529 inverts the equity test
(`hasEquity !== true`), so with hasEquity true it drops the equity clause
entirely, contradicting its own doc comment and the model tests. -/
theorem c5_has_equity_clause :
    JobDraft.sqlForPartialFilter ⟨none, some 200, some true, []⟩ =
      ("WHERE salary >= $1", [Value.num 200]) ∧
    Job.sqlForPartialFilter ⟨none, some 200, some true, []⟩ =
      ("WHERE salary >= $1 AND equity > 0", [Value.num 200]) ∧
    ∀ (t : Option String) (ms : Option Int) (o : List String),
      ((Job.filterClauses ⟨t, ms, none, o⟩).1.contains "equity > 0") = false ∧
      ((Job.filterClauses ⟨t, ms, some false, o⟩).1.contains "equity > 0") = false := by
  refine ⟨by decide, by decide, ?_⟩
  intro t ms o
  constructor <;> rcases t with _ | t <;> rcases ms with _ | ms <;>
    simp [Job.filterClauses] <;> decide

/-- C7: `sqlForPartialUpdate` fails with `BadRequestError` exactly when the
update mapping is empty; on every non-empty mapping it returns output. -/
theorem c7_empty_update_iff (data : List (String × Value))
    (js : List (String × String)) :
    sqlForPartialUpdate data js = .error .badRequest ↔ data = [] := by
  cases data <;> simp [sqlForPartialUpdate]

/-- C9: the empty filter mapping yields the empty predicate and the empty
value list for both the company and the job translator. -/
theorem c9_empty_filter_maps :
    Company.sqlForPartialFilter ⟨none, none, none, []⟩ = .ok ("", []) ∧
    Job.sqlForPartialFilter ⟨none, none, none, []⟩ = ("", []) := by decide

/-- C10: a non-empty filter mapping with no recognized key makes the company
translator return the bare string `WHERE ` (the keyword with zero clauses)
with an empty value list, while the job translator returns the empty
predicate in the analogous case. -/
theorem c10_unrecognized_keys (others : List String) (h : others ≠ []) :
    Company.sqlForPartialFilter ⟨none, none, none, others⟩ = .ok ("WHERE ", []) ∧
    Job.sqlForPartialFilter ⟨none, none, none, others⟩ = ("", []) := by
  have hne : others.isEmpty = false := by
    cases others with
    | nil => exact absurd rfl h
    | cons a rest => rfl
  constructor
  · simp [Company.sqlForPartialFilter, CompanyFilter.isEmptyMap, hne, companyRangeBad]
    rfl
  · simp [Job.sqlForPartialFilter, JobFilter.isEmptyMap, JobFilter.allFalsy, hne]

/-- C6: `Job.update` never changes `companyHandle`: whenever the update of
an existing job with a mapping over the mutable fields title, salary,
equity succeeds, the returned (and stored) row keeps the companyHandle of
the row it replaced. -/
theorem c6_update_preserves_company_handle (s : Store) (jid : Nat)
    (data : List (String × Value)) (r2 : JobRow) (s2 : Store) (row : JobRow)
    (hkeys : ∀ kv ∈ data, kv.1 = "title" ∨ kv.1 = "salary" ∨ kv.1 = "equity")
    (hrow : s.jobs.find? (fun j => j.id == jid) = some row)
    (hup : Job.update s jid data = (.ok r2, s2)) :
    r2.companyHandle = row.companyHandle := by
  cases hd : data with
  | nil =>
    subst hd
    simp [Job.update, sqlForPartialUpdate] at hup
  | cons kv rest =>
    subst hd
    have hkeys2 : ∀ kv2 ∈ updateAssignments [] (kv :: rest),
        kv2.1 = "title" ∨ kv2.1 = "salary" ∨ kv2.1 = "equity" := by
      intro kv2 hm
      obtain ⟨a, ha, rfl⟩ := List.mem_map.1 hm
      simpa [resolveCol, lookupStr] using hkeys a ha
    simp only [Job.update, sqlForPartialUpdate, List.isEmpty_cons, hrow] at hup
    simp only [Bool.false_eq_true, if_false, Prod.mk.injEq, Except.ok.injEq] at hup
    rw [← hup.1]
    exact foldl_applyJobSet_companyHandle row (updateAssignments [] (kv :: rest)) hkeys2

/-- C6 witness: updating `demoJob`'s title leaves its companyHandle (`c1`)
unchanged. -/
theorem c6_update_witness :
    Job.update demoStore 1 [("title", Value.str "newUpdate")] =
      (.ok { id := 1, title := Value.str "newUpdate", salary := Value.num 100,
             equity := Value.str "0.1", companyHandle := Value.str "c1" },
       { companies := [demoCompany],
         jobs := [{ id := 1, title := Value.str "newUpdate", salary := Value.num 100,
                    equity := Value.str "0.1", companyHandle := Value.str "c1" }],
         nextId := 2 }) ∧
    JobRow.companyHandle
        { id := 1, title := Value.str "newUpdate", salary := Value.num 100,
          equity := Value.str "0.1", companyHandle := Value.str "c1" } =
      demoJob.companyHandle := by
  refine ⟨by decide, ?_⟩
  exact c6_update_preserves_company_handle demoStore 1 [("title", Value.str "newUpdate")]
    { id := 1, title := Value.str "newUpdate", salary := Value.num 100,
      equity := Value.str "0.1", companyHandle := Value.str "c1" }
    { companies := [demoCompany],
      jobs := [{ id := 1, title := Value.str "newUpdate", salary := Value.num 100,
                 equity := Value.str "0.1", companyHandle := Value.str "c1" }],
      nextId := 2 }
    demoJob (by decide) (by decide) (by decide)

/-- C8: `Job.create` fails with `BadRequestError` and leaves the store
unchanged when no company carries the given handle; otherwise it inserts
and returns the stored record whose id is the generated `nextId`. -/
theorem c8_job_create (s : Store) (inp : JobInput) :
    ((¬ ∃ c ∈ s.companies, c.handle = inp.companyHandle) →
      Job.create s inp = (.error .badRequest, s)) ∧
    ((∃ c ∈ s.companies, c.handle = inp.companyHandle) →
      Job.create s inp =
        (.ok { id := s.nextId, title := inp.title, salary := inp.salary,
               equity := inp.equity, companyHandle := Value.str inp.companyHandle },
         { s with
             jobs := s.jobs ++
               [{ id := s.nextId, title := inp.title, salary := inp.salary,
                  equity := inp.equity, companyHandle := Value.str inp.companyHandle }],
             nextId := s.nextId + 1 })) := by
  constructor
  · intro h
    have hb : s.companies.any (fun c => c.handle == inp.companyHandle) = false := by
      rw [List.any_eq_false]
      intro c hc
      simp only [beq_iff_eq]
      exact fun he => h ⟨c, hc, he⟩
    simp [Job.create, hb]
  · intro h
    have hb : s.companies.any (fun c => c.handle == inp.companyHandle) = true := by
      rw [List.any_eq_true]
      obtain ⟨c, hc, he⟩ := h
      exact ⟨c, hc, by simp [beq_iff_eq, he]⟩
    simp [Job.create, hb]

/-- C8 witness: in `demoStore`, creating a job under the unknown handle
`notExist` fails with `BadRequestError` and leaves the store unchanged;
creating under `c1` succeeds with generated id 2. -/
theorem c8_job_create_witness :
    Job.create demoStore
        { title := Value.str "new", salary := Value.num 500,
          equity := Value.str "0.5", companyHandle := "notExist" } =
      (.error .badRequest, demoStore) ∧
    Job.create demoStore
        { title := Value.str "new", salary := Value.num 500,
          equity := Value.str "0.5", companyHandle := "c1" } =
      (.ok { id := 2, title := Value.str "new", salary := Value.num 500,
             equity := Value.str "0.5", companyHandle := Value.str "c1" },
       { companies := [demoCompany],
         jobs := [demoJob,
                  { id := 2, title := Value.str "new", salary := Value.num 500,
                    equity := Value.str "0.5", companyHandle := Value.str "c1" }],
         nextId := 3 }) := by
  constructor
  · exact (c8_job_create demoStore _).1 (by decide)
  · exact ((c8_job_create demoStore _).2 ⟨demoCompany, by decide, by decide⟩).trans (by decide)

/-- C10 witness: the mapping `{foo: 1}`. -/
theorem c10_unrecognized_keys_witness :
    Company.sqlForPartialFilter ⟨none, none, none, ["foo"]⟩ = .ok ("WHERE ", []) ∧
    Job.sqlForPartialFilter ⟨none, none, none, ["foo"]⟩ = ("", []) :=
  c10_unrecognized_keys ["foo"] (by decide)

end J2F
